import Mathlib

/-!
Shallow embedding of the korecomm message-routing engine
(`src/pkg/comm/engine.go`) and verification of its specified properties.

Modelling conventions:
* Go strings are byte sequences; they are modelled as `List Nat` (one entry
  per byte), so that `s[0]` and `s[1:len(s)]` keep their byte-level Go
  semantics. Go's integer-to-string conversion `string(b)` yields the UTF-8
  encoding of the code point `b` (two bytes when `b ≥ 0x80`, e.g.
  `string(0xf8)` is the two bytes 195, 184); it is modelled by
  `goStringOfByte`.
* Go maps keyed by strings are modelled as association lists
  `List (String × α)`; assignment `m[k] = v` overwrites an existing entry
  for `k` or appends a fresh one.
* The goroutine bodies of the handlers are pure computations followed by
  sends on channels; each handler is modelled as a function returning the
  messages it pushes (plus, for raw ingress, the warnings it logs and
  whether it hits an out-of-range index, which panics in Go).
* External collaborators that are not part of the repository's source are
  parameters: the command classifier `isCmd`, the configured trigger
  string `adapterCmdTriggerPrefix` (here `trigger`), and the extension
  loaders `LoadPlugin`/`LoadAdapter`. `regexp.FindStringSubmatch` is
  abstracted as a function from content to the submatch list (empty list =
  no match, as in Go where a nil slice has length 0).
-/

namespace Kore

/-- A Go string, as a sequence of bytes. -/
abbrev GoString := List Nat

/-- `RawIngressMessage {Identity, ChannelID, RawContent}`: produced by an
adapter. -/
structure RawIngressMessage where
  Identity : String
  ChannelID : String
  RawContent : GoString
  deriving DecidableEq

/-- `Originator {Identity, ChannelID, AdapterName}`: identifies the reply
destination. -/
structure Originator where
  Identity : String
  ChannelID : String
  AdapterName : String
  deriving DecidableEq

/-- `IngressMessage {Originator, Content}`: a raw message that passed the
command filter, with the trigger character stripped. -/
structure IngressMessage where
  Originator : Originator
  Content : GoString
  deriving DecidableEq

/-- `EgressMessage {ChannelID, Content}`: an outgoing reply. -/
structure EgressMessage where
  ChannelID : String
  Content : GoString
  deriving DecidableEq

/-- Modelled from the spec: `CmdDelegate` (its definition is outside
`src/pkg/comm/engine.go`): the per-invocation mutable scratch object
holding the ingress message, the captured submatches and the response
accumulator written by the handler. -/
structure CmdDelegate where
  IngressMessage : IngressMessage
  Submatches : List GoString
  response : GoString
  deriving DecidableEq

/-- Modelled from the spec: `NewCmdDelegate(im, submatches)` builds a fresh
delegate with an empty response accumulator; the handler signals a reply
solely by writing into `response`. -/
def NewCmdDelegate (im : IngressMessage) (submatches : List GoString) : CmdDelegate :=
  { IngressMessage := im, Submatches := submatches, response := [] }

/-- A plugin command handler. In Go it mutates the delegate through a
pointer; functionally it maps the delegate to its final state. -/
abbrev CmdFn := CmdDelegate → CmdDelegate

/-- One entry of a plugin's `CmdManifest`: a compiled regular expression
together with the handler it routes to. `Regexp` abstracts
`regexp.FindStringSubmatch`: it returns the submatch list on a (unanchored)
match and the empty list when there is no match. -/
structure CmdLink where
  Regexp : GoString → List GoString
  CmdFn : CmdFn

/-- `Plugin {Name, CmdManifest}`. The manifest maps command names to
`CmdLink`s; modelled as an association list. -/
structure Plugin where
  Name : String
  CmdManifest : List (String × CmdLink)

/-- An adapter, as far as the engine observes it: its registry name.
`Listen` and `SendMessage` are external effects; `SendMessage` invocations
are recorded explicitly by the egress model below. -/
structure Adapter where
  Name : String
  deriving DecidableEq

/-- `rawIngressBufferMsg`: an adapter-name-tagged raw message. -/
structure rawIngressBufferMsg where
  AdapterName : String
  RawIngressMessage : RawIngressMessage
  deriving DecidableEq

/-- `ingressBufferMsg`: wraps an `IngressMessage`. -/
structure ingressBufferMsg where
  IngressMessage : IngressMessage
  deriving DecidableEq

/-- `egressBufferMsg`: an `EgressMessage` paired with its `Originator` for
routing. -/
structure egressBufferMsg where
  Originator : Originator
  EgressMessage : EgressMessage
  deriving DecidableEq

/-- `parseRawContent(rawContent)` returns `rawContent[1:len(rawContent)]`:
the content with its first byte removed. (Go would panic on an empty
string; the engine only calls it with a non-empty string.) -/
def parseRawContent (rawContent : GoString) : GoString :=
  rawContent.drop 1

/-- Go's conversion `string(b)` for a byte value `b` (so `0 ≤ b ≤ 255`):
the UTF-8 encoding of the code point `b`. One byte for `b < 0x80`, two
bytes (`0xC0 + b / 64`, `0x80 + b % 64`) otherwise; Go's own example is
`string(0xf8) == "\xc3\xb8"`. -/
def goStringOfByte (b : Nat) : GoString :=
  if b < 128 then [b] else [192 + b / 64, 128 + b % 64]

/-- The observable outcome of `handleRawIngress` on one buffer message:
the `ingressBufferMsg`s pushed onto the ingress buffer, the number of
warning-level log calls made, and whether the goroutine panics on an
out-of-range string index. -/
structure RawIngressOutput where
  ingress : List ingressBufferMsg
  warnings : Nat
  panicked : Bool
  deriving DecidableEq

/-- `handleRawIngress`: filters commands out of raw messages. Non-commands
return silently; a command where `string(rm.RawContent[0])` — the UTF-8
encoding of the first byte's code point, `goStringOfByte` here — differs
from the configured trigger logs two warnings (`log.Warningf` for the
explanation and `log.Warning` for the raw content) and drops the message;
otherwise the stripped content is wrapped into an `IngressMessage` and
pushed to the ingress buffer. Indexing `rm.RawContent[0]` on an empty
string panics in Go: `panicked` records that case. -/
def handleRawIngress (isCmd : GoString → Bool) (trigger : GoString)
    (m : rawIngressBufferMsg) : RawIngressOutput :=
  let adapterName := m.AdapterName
  let rm := m.RawIngressMessage
  if !(isCmd rm.RawContent) then
    { ingress := [], warnings := 0, panicked := false }
  else
    match rm.RawContent with
    | [] =>
      -- rm.RawContent[0]: index out of range
      { ingress := [], warnings := 0, panicked := true }
    | b :: _ =>
      if goStringOfByte b ≠ trigger then
        -- log.Warningf(...); log.Warning(rm.RawContent)
        { ingress := [], warnings := 2, panicked := false }
      else
        { ingress := [{ IngressMessage :=
            { Originator := { Identity := rm.Identity, ChannelID := rm.ChannelID,
                              AdapterName := adapterName },
              Content := parseRawContent rm.RawContent } }],
          warnings := 0, panicked := false }

/-- One match record produced by `applyCmdManifests`: the handler to run
and the captured submatches. -/
structure cmdMatch where
  CmdFn : CmdFn
  Submatches : List GoString

/-- `applyCmdManifests(content)`: runs the content against every
`CmdLink` of every registered plugin; every link whose regexp finds a
match (non-empty submatch list) contributes one `cmdMatch`, in iteration
order, with no cutoff. -/
def applyCmdManifests (plugins : List (String × Plugin)) (content : GoString) :
    List cmdMatch :=
  plugins.flatMap fun p =>
    p.2.CmdManifest.filterMap fun cmdLink =>
      let subm := cmdLink.2.Regexp content
      if subm.length > 0 then
        some { CmdFn := cmdLink.2.CmdFn, Submatches := subm }
      else
        none

/-- `handleIngress`: builds a delegate for every command match, invokes the
handler, and for each invocation whose final delegate response is
non-empty pushes one `egressBufferMsg` (tagged with the original
originator, `ChannelID` copied from it) onto the egress buffer. Returns
the pushed messages in order. -/
def handleIngress (plugins : List (String × Plugin)) (ibm : ingressBufferMsg) :
    List egressBufferMsg :=
  let im := ibm.IngressMessage
  (applyCmdManifests plugins im.Content).filterMap fun cm =>
    let delegate := NewCmdDelegate im cm.Submatches
    let delegate' := cm.CmdFn delegate
    if delegate'.response ≠ [] then
      some { Originator := im.Originator,
             EgressMessage := { ChannelID := im.Originator.ChannelID,
                                Content := delegate'.response } }
    else
      none

/-- Go map read `m[k]` on a string-keyed association list: the value of the
entry for `k`, if any. -/
def mapLookup {α : Type} (m : List (String × α)) (k : String) : Option α :=
  (m.find? fun p => p.1 = k).map fun p => p.2

/-- Go map assignment `m[k] = v`: overwrite the entry for `k` if present,
otherwise append a fresh one. -/
def mapInsert {α : Type} (m : List (String × α)) (k : String) (v : α) :
    List (String × α) :=
  if m.any fun p => p.1 = k then
    m.map fun p => if p.1 = k then (k, v) else p
  else
    m ++ [(k, v)]

/-- `handleEgress`: looks up `e.adapters[ebm.Originator.AdapterName]` and
invokes `SendMessage(ebm.EgressMessage)` on it. The result records the
single `SendMessage` invocation (adapter, message); `none` models the
missing-key case, where Go reads the zero value from the map and the
method call on the nil interface panics. -/
def handleEgress (adapters : List (String × Adapter)) (ebm : egressBufferMsg) :
    Option (Adapter × EgressMessage) :=
  (mapLookup adapters ebm.Originator.AdapterName).map fun a => (a, ebm.EgressMessage)

/-- `loadPlugins`: for each enabled plugin name, resolve it through the
external loader (`LoadPlugin` on the artifact path, abstracted as
`loader`); a load error aborts the whole sequence; a successful load is
inserted into the name-keyed map under the plugin's self-reported `Name`,
overwriting any prior entry. -/
def loadPlugins (loader : String → Except String Plugin) (enabled : List String)
    (plugins : List (String × Plugin)) : Except String (List (String × Plugin)) :=
  match enabled with
  | [] => .ok plugins
  | pluginName :: rest =>
    match loader pluginName with
    | .error err => .error err
    | .ok loadedPlugin =>
      loadPlugins loader rest (mapInsert plugins loadedPlugin.Name loadedPlugin)

/-- `loadAdapters`: same shape as `loadPlugins`, keyed by
`loadedAdapter.Name()`. -/
def loadAdapters (loader : String → Except String Adapter) (enabled : List String)
    (adapters : List (String × Adapter)) : Except String (List (String × Adapter)) :=
  match enabled with
  | [] => .ok adapters
  | adapterName :: rest =>
    match loader adapterName with
    | .error err => .error err
    | .ok loadedAdapter =>
      loadAdapters loader rest (mapInsert adapters loadedAdapter.Name loadedAdapter)

/-- The engine state: the three message buffers and the extension
registry. -/
structure Engine where
  rawIngressBuffer : List rawIngressBufferMsg
  ingressBuffer : List ingressBufferMsg
  egressBuffer : List egressBufferMsg
  plugins : List (String × Plugin)
  adapters : List (String × Adapter)

/-- Which buffer the dispatch loop's `select` fires on. -/
inductive BufferChoice where
  | raw
  | ingress
  | egress

/-- One iteration of the dispatch loop `select`: dequeue from the chosen
buffer (if non-empty) and run the corresponding handler, enqueueing its
outputs. The egress handler's `SendMessage` call is an external effect and
does not change engine state. -/
def Engine.dispatchStep (isCmd : GoString → Bool) (trigger : GoString)
    (e : Engine) (c : BufferChoice) : Engine :=
  match c with
  | .raw =>
    match e.rawIngressBuffer with
    | [] => e
    | m :: rest =>
      { e with rawIngressBuffer := rest,
               ingressBuffer :=
                 e.ingressBuffer ++ (handleRawIngress isCmd trigger m).ingress }
  | .ingress =>
    match e.ingressBuffer with
    | [] => e
    | m :: rest =>
      { e with ingressBuffer := rest,
               egressBuffer := e.egressBuffer ++ handleIngress e.plugins m }
  | .egress =>
    match e.egressBuffer with
    | [] => e
    | _ :: rest =>
      { e with egressBuffer := rest }

/-- End-to-end processing of one raw buffer message through filter/parse
and command dispatch: the egress messages it ultimately queues. -/
def processRaw (isCmd : GoString → Bool) (trigger : GoString)
    (plugins : List (String × Plugin)) (m : rawIngressBufferMsg) :
    List egressBufferMsg :=
  (handleRawIngress isCmd trigger m).ingress.flatMap (handleIngress plugins)

/-- The number of manifest entries, across all loaded plugins, whose
regexp matches the content (non-empty submatch list): the number of
distinct matching patterns. -/
def matchingLinkCount (plugins : List (String × Plugin)) (content : GoString) : Nat :=
  (plugins.map fun p =>
    (p.2.CmdManifest.filter fun cmdLink =>
      (cmdLink.2.Regexp content).length > 0).length).sum

/-- Claim C1: a raw message classified as a command whose first character
passes the trigger check (`string(rm.RawContent[0])` equals the configured
trigger) produces exactly one `IngressMessage`, with `Content` equal to
`RawContent` minus its first character and `Originator` built from the raw
message's identity, channel and the adapter's name. -/
theorem c1_command_with_trigger_forwards_stripped
    (isCmd : GoString → Bool) (trigger : GoString) (m : rawIngressBufferMsg)
    (b : Nat) (rest : GoString)
    (hcmd : isCmd m.RawIngressMessage.RawContent = true)
    (hcontent : m.RawIngressMessage.RawContent = b :: rest)
    (htrig : goStringOfByte b = trigger) :
    (handleRawIngress isCmd trigger m).ingress =
      [{ IngressMessage :=
          { Originator := { Identity := m.RawIngressMessage.Identity,
                            ChannelID := m.RawIngressMessage.ChannelID,
                            AdapterName := m.AdapterName },
            Content := m.RawIngressMessage.RawContent.drop 1 } }] := by
  rw [hcontent] at hcmd
  simp [handleRawIngress, parseRawContent, hcmd, hcontent, htrig]

/-- Witness for C1 at a concrete input: trigger byte 33, raw content
bytes 33, 112. -/
theorem c1_command_with_trigger_forwards_stripped_witness :
    (handleRawIngress (fun _ => true) [33]
      { AdapterName := "discord",
        RawIngressMessage :=
          { Identity := "user", ChannelID := "chan", RawContent := [33, 112] } }).ingress =
      [{ IngressMessage :=
          { Originator := { Identity := "user", ChannelID := "chan",
                            AdapterName := "discord" },
            Content := ([33, 112] : GoString).drop 1 } }] :=
  c1_command_with_trigger_forwards_stripped (fun _ => true) [33] _ 33 [112] rfl rfl rfl

/-- Claim C3: a raw message not classified as a command is silently
dropped: no `IngressMessage`, no warning, and no `EgressMessage` from the
end-to-end pipeline. -/
theorem c3_noncommand_silently_dropped
    (isCmd : GoString → Bool) (trigger : GoString)
    (plugins : List (String × Plugin)) (m : rawIngressBufferMsg)
    (hcmd : isCmd m.RawIngressMessage.RawContent = false) :
    (handleRawIngress isCmd trigger m).ingress = [] ∧
    (handleRawIngress isCmd trigger m).warnings = 0 ∧
    processRaw isCmd trigger plugins m = [] := by
  refine ⟨?_, ?_, ?_⟩ <;> simp [handleRawIngress, processRaw, hcmd]

/-- Witness for C3 at a concrete input. -/
theorem c3_noncommand_silently_dropped_witness :
    (handleRawIngress (fun _ => false) [33]
      { AdapterName := "discord",
        RawIngressMessage :=
          { Identity := "user", ChannelID := "chan",
            RawContent := [104, 105] } }).ingress = [] ∧
    (handleRawIngress (fun _ => false) [33]
      { AdapterName := "discord",
        RawIngressMessage :=
          { Identity := "user", ChannelID := "chan",
            RawContent := [104, 105] } }).warnings = 0 ∧
    processRaw (fun _ => false) [33] []
      { AdapterName := "discord",
        RawIngressMessage :=
          { Identity := "user", ChannelID := "chan",
            RawContent := [104, 105] } } = [] :=
  c3_noncommand_silently_dropped (fun _ => false) [33] [] _ rfl

/-- Counterexample to C4 as stated: at a concrete command-flagged message
with the wrong trigger character, the handler makes two warning-level log
calls (`log.Warningf` and `log.Warning`), not exactly one. -/
theorem c4_counterexample_two_warnings :
    ¬ ((handleRawIngress (fun _ => true) [33]
        { AdapterName := "discord",
          RawIngressMessage :=
            { Identity := "user", ChannelID := "chan",
              RawContent := [35, 104, 105] } }).warnings = 1) := by
  decide

/-- Claim C4 (amended): a raw message classified as a command that fails
the trigger check (`string(rm.RawContent[0])`, the UTF-8 encoding of the
first byte, differs from the configured trigger) produces zero
`IngressMessage`s and logs exactly two warnings (the explanation and the
offending raw content). -/
theorem c4_wrong_trigger_drops_with_two_warnings
    (isCmd : GoString → Bool) (trigger : GoString) (m : rawIngressBufferMsg)
    (b : Nat) (rest : GoString)
    (hcmd : isCmd m.RawIngressMessage.RawContent = true)
    (hcontent : m.RawIngressMessage.RawContent = b :: rest)
    (htrig : goStringOfByte b ≠ trigger) :
    (handleRawIngress isCmd trigger m).ingress = [] ∧
    (handleRawIngress isCmd trigger m).warnings = 2 := by
  rw [hcontent] at hcmd
  constructor <;> simp [handleRawIngress, hcmd, hcontent, htrig]

/-- Witness for the amended C4 at a concrete input: trigger byte 33,
content starting with byte 35. -/
theorem c4_wrong_trigger_drops_with_two_warnings_witness :
    (handleRawIngress (fun _ => true) [33]
      { AdapterName := "discord",
        RawIngressMessage :=
          { Identity := "user", ChannelID := "chan",
            RawContent := [35, 104, 105] } }).ingress = [] ∧
    (handleRawIngress (fun _ => true) [33]
      { AdapterName := "discord",
        RawIngressMessage :=
          { Identity := "user", ChannelID := "chan",
            RawContent := [35, 104, 105] } }).warnings = 2 :=
  c4_wrong_trigger_drops_with_two_warnings (fun _ => true) [33] _ 35 [104, 105]
    rfl rfl (by decide)

/-- Claim C6: the raw-ingress handler forwards at most one
`IngressMessage` per raw message: it drops (non-command, wrong trigger,
or panic on empty content) or forwards exactly one. -/
theorem c6_at_most_one_ingress_per_raw
    (isCmd : GoString → Bool) (trigger : GoString) (m : rawIngressBufferMsg) :
    (handleRawIngress isCmd trigger m).ingress.length ≤ 1 := by
  dsimp [handleRawIngress]
  split
  · simp
  · split
    · simp
    · split <;> simp

/-- Claim C9: the trigger check indexes `RawContent[0]` without an
emptiness guard: the handler hits an out-of-range access exactly when the
classifier flags an empty `RawContent` as a command; on any non-empty
content (or any non-command) there is no out-of-range access. -/
theorem c9_panics_iff_empty_flagged_command
    (isCmd : GoString → Bool) (trigger : GoString) (m : rawIngressBufferMsg) :
    (handleRawIngress isCmd trigger m).panicked = true ↔
      (isCmd m.RawIngressMessage.RawContent = true ∧
        m.RawIngressMessage.RawContent = []) := by
  rcases hr : m.RawIngressMessage.RawContent with _ | ⟨b, rest⟩ <;>
    cases hc : isCmd m.RawIngressMessage.RawContent <;>
      rw [hr] at hc <;>
        simp [handleRawIngress, hr, hc]
  split <;> simp

/-- Counterexample to C10 as stated: with the two-byte trigger 195, 169
(UTF-8 for a non-ASCII character) and content whose first byte is 233, the
message is forwarded even though the one-byte string of the first byte
differs from the trigger — the comparison is not against the one-byte
string, and a multi-byte trigger can match. -/
theorem c10_counterexample_multibyte_trigger_matches :
    2 ≤ ([195, 169] : GoString).length ∧
    (handleRawIngress (fun _ => true) [195, 169]
      { AdapterName := "discord",
        RawIngressMessage :=
          { Identity := "user", ChannelID := "chan",
            RawContent := [233, 112] } }).ingress ≠ [] ∧
    ([233] : GoString) ≠ [195, 169] := by
  decide

/-- Claim C10 (amended): the strip is byte-level — `parseRawContent`
removes exactly the first byte — but the trigger comparison is not: the
check compares `string(RawContent[0])`, the UTF-8 encoding of the first
byte's code point (two bytes when that byte is at least 0x80), against
the configured trigger, and the message is forwarded precisely when the
classifier flags it and that encoding equals the trigger; even when a
two-byte encoding matched, only the single first byte is stripped. -/
theorem c10_trigger_utf8_comparison_and_byte_strip
    (isCmd : GoString → Bool) (trigger : GoString) (m : rawIngressBufferMsg)
    (b : Nat) (rest : GoString)
    (hcontent : m.RawIngressMessage.RawContent = b :: rest) :
    parseRawContent m.RawIngressMessage.RawContent = rest ∧
    ((handleRawIngress isCmd trigger m).ingress ≠ [] ↔
      (isCmd m.RawIngressMessage.RawContent = true ∧ goStringOfByte b = trigger)) ∧
    (∀ msg ∈ (handleRawIngress isCmd trigger m).ingress,
      msg.IngressMessage.Content = rest) := by
  refine ⟨by simp [parseRawContent, hcontent], ?_, ?_⟩
  · cases hc : isCmd m.RawIngressMessage.RawContent <;>
      rw [hcontent] at hc <;>
        simp [handleRawIngress, hcontent, hc]
    split <;> simp_all
  · intro msg hmsg
    simp only [handleRawIngress, hcontent, parseRawContent] at hmsg
    split at hmsg
    · simp at hmsg
    · split at hmsg
      · simp at hmsg
      · simp at hmsg
        simp [hmsg]

/-- Witness for the amended C10 at a concrete input: two-byte trigger
195, 169; content bytes 233, 112; the UTF-8 encoding of 233 is exactly
195, 169, so the message is forwarded with only the byte 233 stripped. -/
theorem c10_trigger_utf8_comparison_and_byte_strip_witness :
    parseRawContent
      ({ AdapterName := "discord",
         RawIngressMessage :=
           { Identity := "user", ChannelID := "chan",
             RawContent := [233, 112] } } :
        rawIngressBufferMsg).RawIngressMessage.RawContent = [112] ∧
    ((handleRawIngress (fun _ => true) [195, 169]
      { AdapterName := "discord",
        RawIngressMessage :=
          { Identity := "user", ChannelID := "chan",
            RawContent := [233, 112] } }).ingress ≠ [] ↔
      ((fun _ => true : GoString → Bool) [233, 112] = true ∧
        goStringOfByte 233 = [195, 169])) ∧
    (∀ msg ∈ (handleRawIngress (fun _ => true) [195, 169]
      { AdapterName := "discord",
        RawIngressMessage :=
          { Identity := "user", ChannelID := "chan",
            RawContent := [233, 112] } }).ingress,
      msg.IngressMessage.Content = [112]) :=
  c10_trigger_utf8_comparison_and_byte_strip (fun _ => true) [195, 169]
    { AdapterName := "discord",
      RawIngressMessage :=
        { Identity := "user", ChannelID := "chan",
          RawContent := [233, 112] } } 233 [112] rfl

/-- Helper: within one manifest, the matches contributed by
`applyCmdManifests` are exactly as many as the links whose regexp finds a
match. -/
theorem manifest_filterMap_length (content : GoString)
    (manifest : List (String × CmdLink)) :
    (manifest.filterMap fun cmdLink =>
      if (cmdLink.2.Regexp content).length > 0 then
        some ({ CmdFn := cmdLink.2.CmdFn,
                Submatches := cmdLink.2.Regexp content } : cmdMatch)
      else
        none).length =
    (manifest.filter fun cmdLink => (cmdLink.2.Regexp content).length > 0).length := by
  induction manifest with
  | nil => rfl
  | cons l ls ih =>
    by_cases h : (l.2.Regexp content).length > 0 <;>
      simp [List.filterMap_cons, List.filter_cons, h, ih]

/-- Helper: the number of command matches equals the number of matching
manifest links across all plugins. -/
theorem applyCmdManifests_length (plugins : List (String × Plugin))
    (content : GoString) :
    (applyCmdManifests plugins content).length = matchingLinkCount plugins content := by
  induction plugins with
  | nil => rfl
  | cons p ps ih =>
    simp only [applyCmdManifests, matchingLinkCount, List.flatMap_cons, List.map_cons,
      List.sum_cons, List.length_append] at ih ⊢
    rw [manifest_filterMap_length, ih]

/-- Helper: the egress messages queued by `handleIngress` are exactly as
many as the handler invocations whose final delegate response is
non-empty. -/
theorem handleIngress_length (plugins : List (String × Plugin))
    (ibm : ingressBufferMsg) :
    (handleIngress plugins ibm).length =
      ((applyCmdManifests plugins ibm.IngressMessage.Content).filter fun cm =>
        (cm.CmdFn (NewCmdDelegate ibm.IngressMessage cm.Submatches)).response ≠ []).length := by
  dsimp only [handleIngress]
  generalize applyCmdManifests plugins ibm.IngressMessage.Content = ms
  induction ms with
  | nil => rfl
  | cons c cs ih =>
    simp only [ne_eq, ite_not, decide_not] at ih
    by_cases h : (c.CmdFn (NewCmdDelegate ibm.IngressMessage c.Submatches)).response = [] <;>
      simp [List.filterMap_cons, List.filter_cons, h, ih]

/-- Claim C2: every matching pattern across every loaded plugin fires —
the number of handler invocations equals the number of manifest links
whose regexp matches the content (no first-match-wins cutoff), and the
number of queued `EgressMessage`s equals the number of invocations whose
delegate response is non-empty. -/
theorem c2_all_matches_invoked_and_egress_counted
    (plugins : List (String × Plugin)) (ibm : ingressBufferMsg) :
    (applyCmdManifests plugins ibm.IngressMessage.Content).length =
      matchingLinkCount plugins ibm.IngressMessage.Content ∧
    (handleIngress plugins ibm).length =
      ((applyCmdManifests plugins ibm.IngressMessage.Content).filter fun cm =>
        (cm.CmdFn (NewCmdDelegate ibm.IngressMessage cm.Submatches)).response ≠ []).length :=
  ⟨applyCmdManifests_length plugins ibm.IngressMessage.Content,
   handleIngress_length plugins ibm⟩

/-- Claim C5: every egress message queued by the command dispatcher from
an ingress message carries the original originator and its `ChannelID`,
and the egress dispatcher invokes `SendMessage` only on the adapter
registered under that originator's `AdapterName`. -/
theorem c5_egress_routed_to_originating_adapter
    (plugins : List (String × Plugin)) (adapters : List (String × Adapter))
    (ibm : ingressBufferMsg) (ebm : egressBufferMsg)
    (hmem : ebm ∈ handleIngress plugins ibm) :
    ebm.Originator = ibm.IngressMessage.Originator ∧
    ebm.EgressMessage.ChannelID = ibm.IngressMessage.Originator.ChannelID ∧
    handleEgress adapters ebm =
      (mapLookup adapters ibm.IngressMessage.Originator.AdapterName).map
        fun a => (a, ebm.EgressMessage) := by
  unfold handleIngress at hmem
  rw [List.mem_filterMap] at hmem
  obtain ⟨cm, _, hsome⟩ := hmem
  dsimp only at hsome
  split at hsome
  · obtain rfl := Option.some_injective _ hsome
    exact ⟨rfl, rfl, rfl⟩
  · exact absurd hsome (by simp)

/-- Concrete plugin for the C5 witness: one link matching content
byte 112, replying with byte 111. -/
def w5plugin : Plugin :=
  { Name := "ping",
    CmdManifest :=
      [("ping",
        { Regexp := fun c => if c = [112] then [[112]] else [],
          CmdFn := fun d => { d with response := [111] } })] }

/-- Concrete ingress buffer message for the C5 witness. -/
def w5ibm : ingressBufferMsg :=
  { IngressMessage :=
      { Originator := { Identity := "user", ChannelID := "chan",
                        AdapterName := "discord" },
        Content := [112] } }

/-- Concrete egress buffer message the C5 witness expects. -/
def w5ebm : egressBufferMsg :=
  { Originator := { Identity := "user", ChannelID := "chan",
                    AdapterName := "discord" },
    EgressMessage := { ChannelID := "chan", Content := [111] } }

/-- Concrete adapter registry for the C5 witness. -/
def w5adapters : List (String × Adapter) := [("discord", { Name := "discord" })]

/-- Witness for C5 at a concrete input. -/
theorem c5_egress_routed_to_originating_adapter_witness :
    w5ebm ∈ handleIngress [("ping", w5plugin)] w5ibm ∧
    (w5ebm.Originator = w5ibm.IngressMessage.Originator ∧
     w5ebm.EgressMessage.ChannelID = w5ibm.IngressMessage.Originator.ChannelID ∧
     handleEgress w5adapters w5ebm =
       (mapLookup w5adapters w5ibm.IngressMessage.Originator.AdapterName).map
         fun a => (a, w5ebm.EgressMessage)) :=
  ⟨by decide,
   c5_egress_routed_to_originating_adapter [("ping", w5plugin)] w5adapters
     w5ibm w5ebm (by decide)⟩

/-- Claim C7: no run-phase engine operation (any iteration of the dispatch
loop: raw-ingress handling, ingress dispatch with command matching, or
egress dispatch) changes the plugins or adapters registries. -/
theorem c7_registry_immutable_during_run
    (isCmd : GoString → Bool) (trigger : GoString) (e : Engine) (c : BufferChoice) :
    (e.dispatchStep isCmd trigger c).plugins = e.plugins ∧
    (e.dispatchStep isCmd trigger c).adapters = e.adapters := by
  cases c <;> dsimp only [Engine.dispatchStep] <;> split <;> exact ⟨rfl, rfl⟩

/-- Claim C8: when two loads report the same name, the later successful
load overwrites the earlier entry in the name-keyed map and loading still
reports success — for plugins and for adapters alike. -/
theorem c8_duplicate_name_overwrites_and_succeeds
    (loaderP : String → Except String Plugin)
    (loaderA : String → Except String Adapter)
    (n1 n2 : String) (p1 p2 : Plugin) (a1 a2 : Adapter)
    (hp1 : loaderP n1 = .ok p1) (hp2 : loaderP n2 = .ok p2)
    (hpn : p1.Name = p2.Name)
    (ha1 : loaderA n1 = .ok a1) (ha2 : loaderA n2 = .ok a2)
    (han : a1.Name = a2.Name) :
    (∃ m, loadPlugins loaderP [n1, n2] [] = .ok m ∧
      mapLookup m p1.Name = some p2) ∧
    (∃ m, loadAdapters loaderA [n1, n2] [] = .ok m ∧
      mapLookup m a1.Name = some a2) := by
  refine ⟨⟨[(p2.Name, p2)], ?_, ?_⟩, ⟨[(a2.Name, a2)], ?_, ?_⟩⟩ <;>
    simp [loadPlugins, loadAdapters, mapInsert, mapLookup, List.find?,
      hp1, hp2, hpn, ha1, ha2, han]

/-- Concrete no-op command link for the C8 witness. -/
def w8link : CmdLink := { Regexp := fun _ => [], CmdFn := fun d => d }

/-- First plugin loaded in the C8 witness. -/
def w8p1 : Plugin := { Name := "dup", CmdManifest := [] }

/-- Second plugin loaded in the C8 witness; same name, different
manifest. -/
def w8p2 : Plugin := { Name := "dup", CmdManifest := [("noop", w8link)] }

/-- Adapters sharing a name for the C8 witness. -/
def w8a1 : Adapter := { Name := "dupAdapter" }

/-- Second adapter with the colliding name for the C8 witness. -/
def w8a2 : Adapter := { Name := "dupAdapter" }

/-- Plugin loader for the C8 witness. -/
def w8loaderP : String → Except String Plugin := fun n =>
  if n = "first" then .ok w8p1 else .ok w8p2

/-- Adapter loader for the C8 witness. -/
def w8loaderA : String → Except String Adapter := fun n =>
  if n = "first" then .ok w8a1 else .ok w8a2

/-- Witness for C8 at a concrete input. -/
theorem c8_duplicate_name_overwrites_and_succeeds_witness :
    (∃ m, loadPlugins w8loaderP ["first", "second"] [] = .ok m ∧
      mapLookup m w8p1.Name = some w8p2) ∧
    (∃ m, loadAdapters w8loaderA ["first", "second"] [] = .ok m ∧
      mapLookup m w8a1.Name = some w8a2) :=
  c8_duplicate_name_overwrites_and_succeeds w8loaderP w8loaderA "first" "second"
    w8p1 w8p2 w8a1 w8a2 rfl rfl rfl rfl rfl rfl

end Kore
